import Mathlib

/-
Verification of the HTTP/3 connection engine of `quiche/src/h3/mod.rs`
against its natural-language specification.

The development shallowly embeds the parts of the module that the
verified properties touch: the error taxonomy and its wire mapping, the
GREASE generator, the Extensible Priority field-value interpretation,
the connection-level frame dispatcher (GOAWAY and PRIORITY_UPDATE
arms), and the send path (send_request / send_headers / do_send_body /
send_goaway).  The QUIC transport is modelled as an oracle of response
functions plus a log of accepted stream writes; QPACK is an oracle
producing the header block.  Machine integers (u64) are mapped to Nat;
the only u64 operation whose overflow matters, `checked_add(4)` in
send_request, is modelled with its explicit 2^64 bound.
-/

namespace H3

/-- Abstraction of the transport-level error type `crate::Error` as consumed
by the h3 module: only `Done` and `StreamReset` are inspected by the code we
model; every other transport error is collapsed into `other`. -/
inductive TransportErr : Type
  | done
  | streamReset (code : Nat)
  | other
deriving DecidableEq

/-- The h3 error enum `Error` from mod.rs. -/
inductive Error : Type
  | Done
  | BufferTooShort
  | InternalError
  | ExcessiveLoad
  | IdError
  | StreamCreationError
  | ClosedCriticalStream
  | MissingSettings
  | FrameUnexpected
  | FrameError
  | QpackDecompressionFailed
  | TransportError (e : TransportErr)
  | StreamBlocked
  | SettingsError
  | RequestRejected
  | RequestCancelled
  | RequestIncomplete
  | MessageError
  | ConnectError
  | VersionFallback
deriving DecidableEq

/-- The `WireErrorCode` enum from mod.rs (RFC 9114 wire error codes). -/
inductive WireErrorCode : Type
  | NoError
  | GeneralProtocolError
  | InternalError
  | StreamCreationError
  | ClosedCriticalStream
  | FrameUnexpected
  | FrameError
  | ExcessiveLoad
  | IdError
  | SettingsError
  | MissingSettings
  | RequestRejected
  | RequestCancelled
  | RequestIncomplete
  | MessageError
  | ConnectError
  | VersionFallback
deriving DecidableEq

/-- The explicit discriminants of the Rust `WireErrorCode` enum
(`NoError = 0x100`, ...). -/
def WireErrorCode.val : WireErrorCode → Nat
  | .NoError => 0x100
  | .GeneralProtocolError => 0x101
  | .InternalError => 0x102
  | .StreamCreationError => 0x103
  | .ClosedCriticalStream => 0x104
  | .FrameUnexpected => 0x105
  | .FrameError => 0x106
  | .ExcessiveLoad => 0x107
  | .IdError => 0x108
  | .SettingsError => 0x109
  | .MissingSettings => 0x10a
  | .RequestRejected => 0x10b
  | .RequestCancelled => 0x10c
  | .RequestIncomplete => 0x10d
  | .MessageError => 0x10e
  | .ConnectError => 0x10f
  | .VersionFallback => 0x110

/-- `Error::to_wire` from mod.rs: the wire error code used when closing the
transport because of a given h3 error. -/
def Error.to_wire : Error → Nat
  | .Done => WireErrorCode.val .NoError
  | .InternalError => WireErrorCode.val .InternalError
  | .StreamCreationError => WireErrorCode.val .StreamCreationError
  | .ClosedCriticalStream => WireErrorCode.val .ClosedCriticalStream
  | .FrameUnexpected => WireErrorCode.val .FrameUnexpected
  | .FrameError => WireErrorCode.val .FrameError
  | .ExcessiveLoad => WireErrorCode.val .ExcessiveLoad
  | .IdError => WireErrorCode.val .IdError
  | .MissingSettings => WireErrorCode.val .MissingSettings
  | .QpackDecompressionFailed => 0x200
  | .BufferTooShort => 0x999
  | .TransportError _ => 0xFF
  | .StreamBlocked => 0xFF
  | .SettingsError => WireErrorCode.val .SettingsError
  | .RequestRejected => WireErrorCode.val .RequestRejected
  | .RequestCancelled => WireErrorCode.val .RequestCancelled
  | .RequestIncomplete => WireErrorCode.val .RequestIncomplete
  | .MessageError => WireErrorCode.val .MessageError
  | .ConnectError => WireErrorCode.val .ConnectError
  | .VersionFallback => WireErrorCode.val .VersionFallback

/-- `impl From<super::Error> for Error` from mod.rs: a transport `Done` is
normalised to the h3 `Done`, every other transport error is wrapped. -/
def errorFromTransport : TransportErr → Error
  | .done => .Done
  | e => .TransportError e

/-- Modelled from the spec: `octets::varint_len` (the octets crate is not
among the sources).  Spec section 4.2: varints use the QUIC 1/2/4/8-byte
encoding with 62-bit range. -/
def varint_len (v : Nat) : Nat :=
  if v ≤ 63 then 1
  else if v ≤ 16383 then 2
  else if v ≤ 1073741823 then 4
  else 8

/-- The constant `PRIORITY_URGENCY_LOWER_BOUND` from mod.rs. -/
def PRIORITY_URGENCY_LOWER_BOUND : Int := 0

/-- The constant `PRIORITY_URGENCY_UPPER_BOUND` from mod.rs. -/
def PRIORITY_URGENCY_UPPER_BOUND : Int := 7

/-- The constant `PRIORITY_URGENCY_DEFAULT` from mod.rs. -/
def PRIORITY_URGENCY_DEFAULT : Nat := 3

/-- Abstraction of the bare item of the external `sfv` crate: `as_int`
answers only for integers, `as_bool` only for booleans; every other bare
item type (decimal, string, token, byte sequence) is `otherItem`. -/
inductive BareItem : Type
  | integer (v : Int)
  | boolean (b : Bool)
  | otherItem
deriving DecidableEq

/-- `sfv::BareItem::as_int`. -/
def BareItem.as_int : BareItem → Option Int
  | .integer v => some v
  | _ => none

/-- `sfv::BareItem::as_bool`. -/
def BareItem.as_bool : BareItem → Option Bool
  | .boolean b => some b
  | _ => none

/-- Abstraction of `sfv::ListEntry`: a dictionary member is either an item
(whose parameters the code never inspects, so only the bare item is kept)
or an inner list (whose contents the code never inspects). -/
inductive ListEntry : Type
  | item (bare_item : BareItem)
  | innerList
deriving DecidableEq

/-- An already-parsed Structured Fields Dictionary: an ordered association
of keys to members, as produced by `sfv::Parser::parse_dictionary` (the
byte-level parse of the external sfv crate is out of scope; the theorems
quantify over its output). -/
def Dict : Type := List (String × ListEntry)

/-- `Dictionary::get` of the sfv crate: lookup by key. -/
def Dict.get (d : Dict) (k : String) : Option ListEntry :=
  (d.find? (fun p => p.1 == k)).map (fun p => p.2)

/-- The `Priority` struct from mod.rs (urgency is a u8). -/
structure Priority : Type where
  urgency : Nat
  incremental : Bool
deriving DecidableEq

/-- `Priority::new` from mod.rs. -/
def Priority.new (urgency : Nat) (incremental : Bool) : Priority :=
  { urgency, incremental }

/-- The urgency computation of `Priority::try_from` in mod.rs: the match on
`dict.get("u")`.  An integer item outside
`PRIORITY_URGENCY_LOWER_BOUND..=PRIORITY_URGENCY_UPPER_BOUND` is replaced
by the upper bound; a non-integer item or an inner list is `Done`; an
omitted `u` yields `PRIORITY_URGENCY_DEFAULT`. -/
def priority_urgency_from (d : Dict) : Except Error Nat :=
  match d.get "u" with
  | some (.item bi) =>
    match bi.as_int with
    | some v =>
      if ¬(PRIORITY_URGENCY_LOWER_BOUND ≤ v ∧ v ≤ PRIORITY_URGENCY_UPPER_BOUND)
      then .ok PRIORITY_URGENCY_UPPER_BOUND.toNat
      else .ok v.toNat
    | none => .error .Done
  | some .innerList => .error .Done
  | none => .ok PRIORITY_URGENCY_DEFAULT

/-- The incremental computation of `Priority::try_from` in mod.rs: the match
on `dict.get("i")`.  A boolean item yields its value; a non-boolean item is
`Done`; anything else (omitted, or an inner list: the source's `_` arm)
yields the default `false`. -/
def priority_incremental_from (d : Dict) : Except Error Bool :=
  match d.get "i" with
  | some (.item bi) =>
    match bi.as_bool with
    | some b => .ok b
    | none => .error .Done
  | _ => .ok false

/-- `Priority::try_from` from mod.rs, over an already-parsed dictionary:
compute the urgency, then the incremental flag, propagating `Done`. -/
def priority_try_from (d : Dict) : Except Error Priority :=
  match priority_urgency_from d with
  | .error e => .error e
  | .ok urgency =>
    match priority_incremental_from d with
    | .error e => .error e
    | .ok incremental => .ok (Priority.new urgency incremental)

/-- The upper bound passed to `rand_u64_uniform` in `grease_value` in
mod.rs: `148_764_065_110_560_899`. -/
def grease_rand_bound : Nat := 148764065110560899

/-- `grease_value` from mod.rs, parameterised by the random draw `n`.
Modelled from the spec for the random source: `rand_u64_uniform(b)` (the
rand module is not among the sources) returns a uniformly chosen value
below `b`, so the draw `n` ranges over `n < grease_rand_bound`.  The body
`31 * n + 33` is the literal computation of mod.rs. -/
def grease_value (n : Nat) : Nat := 31 * n + 33

/-- Modelled from the spec: frame-type constant `DATA_FRAME_TYPE_ID` of
`h3/frame.rs` (not among the sources); spec section 6: DATA=0x0. -/
def DATA_FRAME_TYPE_ID : Nat := 0

/-- Modelled from the spec: frame-type constant `HEADERS_FRAME_TYPE_ID` of
`h3/frame.rs` (not among the sources); spec section 6: HEADERS=0x1. -/
def HEADERS_FRAME_TYPE_ID : Nat := 1

/-- Modelled from the spec: frame-type constant `GOAWAY_FRAME_TYPE_ID` of
`h3/frame.rs` (not among the sources); spec section 6: GOAWAY=0x7. -/
def GOAWAY_FRAME_TYPE_ID : Nat := 7

/-- Modelled from the spec: the per-stream state of `h3/stream.rs` (not among
the sources), restricted to the fields the connection engine reads or writes
through the stream's accessors: `local_initialized` (initial HEADERS sent),
`trailers_sent`, and `last_priority_update` (raw bytes of the most recent
PRIORITY_UPDATE field value); spec section 3, Stream. -/
structure StreamSt : Type where
  localInitialized : Bool
  trailersSent : Bool
  lastPriorityUpdate : Option (List Nat)
deriving DecidableEq

/-- Modelled from the spec: `Stream::new` starts with HEADERS not yet sent,
no trailers sent and no stored PRIORITY_UPDATE. -/
def StreamSt.new : StreamSt := ⟨false, false, none⟩

/-- Modelled from the spec: `Stream::initialize_local` marks the initial
HEADERS as sent. -/
def StreamSt.initialize_local (s : StreamSt) : StreamSt :=
  { s with localInitialized := true }

/-- The stream table `streams` (a hash map keyed by stream id), as an
association list. -/
abbrev StreamMap : Type := List (Nat × StreamSt)

/-- Hash-map lookup on the stream table. -/
def smLookup : StreamMap → Nat → Option StreamSt
  | [], _ => none
  | p :: t, k => if p.1 = k then some p.2 else smLookup t k

/-- Hash-map removal on the stream table. -/
def smErase : StreamMap → Nat → StreamMap
  | [], _ => []
  | p :: t, k => if p.1 = k then smErase t k else p :: smErase t k

/-- Hash-map insertion (replacing any previous binding) on the stream
table. -/
def smInsert (m : StreamMap) (k : Nat) (v : StreamSt) : StreamMap :=
  (k, v) :: smErase m k

/-- The fields of the `Connection` struct of mod.rs that the verified
operations read or write.  The settings, QPACK handles, per-QPACK-stream
counters, `next_uni_stream_id` and `finished_streams` are not touched by
the modelled operations and are elided. -/
structure ConnState : Type where
  isServer : Bool
  nextRequestStreamId : Nat
  streams : StreamMap
  controlStreamId : Option Nat
  peerControlStreamId : Option Nat
  framesGreased : Bool
  localGoawayId : Option Nat
  peerGoawayId : Option Nat
  maxPushId : Nat
deriving DecidableEq

/-- One accepted `stream_send` call: target stream, number of bytes handed
to the transport, and the fin flag. -/
structure SendRec : Type where
  sid : Nat
  len : Nat
  fin : Bool
deriving DecidableEq

/-- The QUIC transport as consumed by the send path, modelled as an oracle
of per-call response functions plus a log of the writes the transport
accepted.  The response functions are fixed for the duration of one engine
call (the engine is single-threaded and never yields internally, spec
section 5). -/
structure Transport : Type where
  grease : Bool
  grease1 : Nat
  grease2 : Nat
  sendErr : Nat → Option TransportErr
  capacity : Nat → Except TransportErr Nat
  writableRes : Nat → Nat → Except TransportErr Bool
  streamFinished : Nat → Bool
  sent : List SendRec

/-- `transport.stream_send(id, bytes, fin)`: either the configured error, or
acceptance of the whole buffer, appended to the log.  (At the modelled call
sites a successful send is complete: HEADERS writes are preceded by a
successful `stream_writable` probe and DATA writes are clamped to the
stream capacity beforehand.) -/
def Transport.stream_send (tp : Transport) (sid len : Nat) (fin : Bool) :
    Transport × Except TransportErr Nat :=
  match tp.sendErr sid with
  | some e => (tp, .error e)
  | none => ({ tp with sent := tp.sent ++ [⟨sid, len, fin⟩] }, .ok len)

/-- The writes in the log aimed at one stream. -/
def sentOn (l : List SendRec) (sid : Nat) : List SendRec :=
  l.filter (fun r => r.sid == sid)

/-- Total number of bytes the transport accepted for one stream. -/
def sentBytes (l : List SendRec) (sid : Nat) : Nat :=
  ((sentOn l sid).map (fun r => r.len)).sum

/-- `Connection::send_grease_frames` from mod.rs: query the stream
capacity (pruning the stream on error if it is finished), silently skip
greasing when the capacity cannot hold both GREASE frames, otherwise write
an empty GREASE frame (type varint, length varint `0`) and a GREASE frame
with the 18-byte payload (type varint, length varint `18`, payload).  The
two random `grease_value()` draws are the transport oracle's `grease1` and
`grease2`. -/
def send_grease_frames (st : ConnState) (tp : Transport) (sid : Nat) :
    ConnState × Transport × Except Error Unit :=
  match tp.capacity sid with
  | .error e =>
    let st' := if tp.streamFinished sid
      then { st with streams := smErase st.streams sid } else st
    (st', tp, .error (errorFromTransport e))
  | .ok cap =>
    let overhead := varint_len tp.grease1 + 1 + varint_len tp.grease2 + 1 + 18
    if cap < overhead then (st, tp, .ok ())
    else
      match tp.stream_send sid (varint_len tp.grease1) false with
      | (tp1, .error e) => (st, tp1, .error (errorFromTransport e))
      | (tp1, .ok _) =>
        match tp1.stream_send sid 1 false with
        | (tp2, .error e) => (st, tp2, .error (errorFromTransport e))
        | (tp2, .ok _) =>
          match tp2.stream_send sid (varint_len tp.grease2) false with
          | (tp3, .error e) => (st, tp3, .error (errorFromTransport e))
          | (tp3, .ok _) =>
            match tp3.stream_send sid 1 false with
            | (tp4, .error e) => (st, tp4, .error (errorFromTransport e))
            | (tp4, .ok _) =>
              match tp4.stream_send sid 18 false with
              | (tp5, .error e) => (st, tp5, .error (errorFromTransport e))
              | (tp5, .ok _) => (st, tp5, .ok ())

/-- The emission half of `Connection::send_headers` from mod.rs, reached
after the one-shot greasing step. -/
def send_headers_emit (st : ConnState) (tp : Transport) (sid : Nat)
    (header_block : List Nat) (fin : Bool) :
    ConnState × Transport × Except Error Unit :=
  let overhead := varint_len HEADERS_FRAME_TYPE_ID +
    varint_len header_block.length
  match tp.writableRes sid (overhead + header_block.length) with
  | .ok true =>
    match tp.stream_send sid overhead false with
    | (tp2, .error e) => (st, tp2, .error (errorFromTransport e))
    | (tp2, .ok _) =>
      match tp2.stream_send sid header_block.length fin with
      | (tp3, .error e) => (st, tp3, .error (errorFromTransport e))
      | (tp3, .ok _) =>
        let st2 := match smLookup st.streams sid with
          | some s =>
            { st with streams := smInsert st.streams sid s.initialize_local }
          | none => st
        let st3 := if fin ∧ tp3.streamFinished sid
          then { st2 with streams := smErase st2.streams sid } else st2
        (st3, tp3, .ok ())
  | .ok false => (st, tp, .error .StreamBlocked)
  | .error e =>
    let st2 := if tp.streamFinished sid
      then { st with streams := smErase st.streams sid } else st
    (st2, tp, .error (errorFromTransport e))

/-- `Connection::send_headers` from mod.rs.  The QPACK-encoded header block
is the oracle output `header_block` (QPACK is a black-box codec, spec
section 1; the encoder's internal-error path is orthogonal to the verified
properties and elided).  Greasing happens first (one-shot), then
`send_headers_emit` writes the HEADERS frame header (type varint and
length varint, `overhead` bytes) and the header block, but only after
`stream_writable` affirmed room for `overhead + header_block.length`
bytes; a negative probe is `StreamBlocked`. -/
def send_headers (st : ConnState) (tp : Transport) (sid : Nat)
    (header_block : List Nat) (fin : Bool) :
    ConnState × Transport × Except Error Unit :=
  if ¬st.framesGreased ∧ tp.grease then
    match send_grease_frames st tp sid with
    | (st1, tp1, .error e) => (st1, tp1, .error e)
    | (st1, tp1, .ok _) =>
      send_headers_emit { st1 with framesGreased := true } tp1 sid
        header_block fin
  else send_headers_emit st tp sid header_block fin

/-- `Connection::send_request` from mod.rs: refuse after a peer GOAWAY,
reserve the next request stream id, force stream creation with a
zero-length write (rolling the reservation back on failure, with transport
`Done` surfaced as `StreamBlocked`), send the HEADERS frame, and only then
advance `next_request_stream_id` by 4 (`checked_add`, `IdError` on u64
overflow). -/
def send_request (st : ConnState) (tp : Transport) (header_block : List Nat)
    (fin : Bool) : ConnState × Transport × Except Error Nat :=
  if st.peerGoawayId.isSome then (st, tp, .error .FrameUnexpected)
  else
    let stream_id := st.nextRequestStreamId
    let st1 := { st with streams := smInsert st.streams stream_id StreamSt.new }
    match tp.stream_send stream_id 0 false with
    | (tp1, .error e) =>
      let st2 := { st1 with streams := smErase st1.streams stream_id }
      if e = .done then (st2, tp1, .error .StreamBlocked)
      else (st2, tp1, .error (errorFromTransport e))
    | (tp1, .ok _) =>
      match send_headers st1 tp1 stream_id header_block fin with
      | (st2, tp2, .error e) => (st2, tp2, .error e)
      | (st2, tp2, .ok _) =>
        if st2.nextRequestStreamId + 4 < 2 ^ 64 then
          ({ st2 with nextRequestStreamId := st2.nextRequestStreamId + 4 },
            tp2, .ok stream_id)
        else (st2, tp2, .error .IdError)

/-- `Connection::do_send_body` from mod.rs (specialised to the `send_body`
write function, which performs a full write of the DATA frame header
followed by the clamped body): validate the stream, refuse 0-length DATA
with `Done` unless closing, query the capacity, clamp the body to
`cap - overhead`, force `fin = false` on truncation, re-check the 0-length
case, then write the frame header (type varint and body-length varint) and
`body_len` body bytes. -/
def do_send_body (st : ConnState) (tp : Transport) (stream_id len : Nat)
    (fin : Bool) : ConnState × Transport × Except Error Nat :=
  if stream_id % 4 ≠ 0 then (st, tp, .error .FrameUnexpected)
  else
    match smLookup st.streams stream_id with
    | none => (st, tp, .error .FrameUnexpected)
    | some s =>
      if ¬s.localInitialized then (st, tp, .error .FrameUnexpected)
      else if s.trailersSent then (st, tp, .error .FrameUnexpected)
      else if len = 0 ∧ ¬fin then (st, tp, .error .Done)
      else
        let overhead := varint_len DATA_FRAME_TYPE_ID + varint_len len
        match tp.capacity stream_id with
        | .error e =>
          let st1 := if tp.streamFinished stream_id
            then { st with streams := smErase st.streams stream_id } else st
          (st1, tp, .error (errorFromTransport e))
        | .ok stream_cap =>
          if stream_cap < overhead then (st, tp, .error .Done)
          else
            let body_len := min len (stream_cap - overhead)
            let fin' := if body_len ≠ len then false else fin
            if body_len = 0 ∧ ¬fin' then (st, tp, .error .Done)
            else
              let off := varint_len DATA_FRAME_TYPE_ID + varint_len body_len
              match tp.stream_send stream_id off false with
              | (tp1, .error e) => (st, tp1, .error (errorFromTransport e))
              | (tp1, .ok _) =>
                match tp1.stream_send stream_id body_len fin' with
                | (tp2, .error e) => (st, tp2, .error (errorFromTransport e))
                | (tp2, .ok written) =>
                  let st1 := if fin' ∧ written = len ∧
                      tp2.streamFinished stream_id
                    then { st with streams := smErase st.streams stream_id }
                    else st
                  (st1, tp2, .ok written)

/-- The events surfaced by `poll` (header lists elided: the verified
properties never inspect them). -/
inductive Event : Type
  | Headers (more_frames : Bool)
  | Data
  | Finished
  | Reset (code : Nat)
  | PriorityUpdate
  | GoAway
deriving DecidableEq

/-- The frames whose `process_frame` arms the verified properties concern.
The remaining variants of `frame::Frame` are handled by independent arms of
the source match and are not modelled. -/
inductive Frame : Type
  | GoAway (id : Nat)
  | PriorityUpdateRequest (prioritized_element_id : Nat)
      (priority_field_value : List Nat)
deriving DecidableEq

/-- A recorded `conn.close(app, code, reason)` call on the transport. -/
structure CloseCall : Type where
  app : Bool
  code : Nat
  reason : String
deriving DecidableEq

/-- The transport facts the receive path reads: the bidirectional stream
limit and which streams have been collected. -/
structure RecvTransport : Type where
  maxStreamsBidi : Nat
  isCollected : Nat → Bool

/-- `Connection::process_frame` from mod.rs, restricted to the GOAWAY and
PRIORITY_UPDATE (request) arms: returns the updated connection state, the
`close` call issued on the transport (if any), and the poll result. -/
def process_frame (st : ConnState) (tpv : RecvTransport) (stream_id : Nat) :
    Frame → ConnState × Option CloseCall × Except Error (Nat × Event)
  | .GoAway id =>
    if some stream_id ≠ st.peerControlStreamId then
      (st, some ⟨true, Error.to_wire .FrameUnexpected,
        "GOAWAY received on non-control stream"⟩, .error .FrameUnexpected)
    else if ¬st.isServer ∧ id % 4 ≠ 0 then
      (st, some ⟨true, Error.to_wire .FrameUnexpected,
        "GOAWAY received with ID of non-request stream"⟩, .error .IdError)
    else
      match st.peerGoawayId with
      | some received_id =>
        if id > received_id then
          (st, some ⟨true, Error.to_wire .IdError,
            "GOAWAY received with ID larger than previously received"⟩,
            .error .IdError)
        else ({ st with peerGoawayId := some id }, none, .ok (id, .GoAway))
      | none => ({ st with peerGoawayId := some id }, none, .ok (id, .GoAway))
  | .PriorityUpdateRequest peid pfv =>
    if ¬st.isServer then
      (st, some ⟨true, Error.to_wire .FrameUnexpected,
        "PRIORITY_UPDATE received by client"⟩, .error .FrameUnexpected)
    else if some stream_id ≠ st.peerControlStreamId then
      (st, some ⟨true, Error.to_wire .FrameUnexpected,
        "PRIORITY_UPDATE received on non-control stream"⟩,
        .error .FrameUnexpected)
    else if peid % 4 ≠ 0 then
      (st, some ⟨true, Error.to_wire .FrameUnexpected,
        "PRIORITY_UPDATE for request stream type with wrong ID"⟩,
        .error .FrameUnexpected)
    else if peid > tpv.maxStreamsBidi * 4 then
      (st, some ⟨true, Error.to_wire .IdError,
        "PRIORITY_UPDATE for request stream beyond max streams limit"⟩,
        .error .IdError)
    else if tpv.isCollected peid then (st, none, .error .Done)
    else
      let s := (smLookup st.streams peid).getD StreamSt.new
      let had := s.lastPriorityUpdate.isSome
      let s' := { s with lastPriorityUpdate := some pfv }
      let st' := { st with streams := smInsert st.streams peid s' }
      if ¬had then (st', none, .ok (peid, .PriorityUpdate))
      else (st', none, .error .Done)

/-- `Connection::take_last_priority_update` from mod.rs: take (return and
clear) the stored PRIORITY_UPDATE field value of the prioritized element,
`Done` when there is none or the element does not exist.  The stream's
`take_last_priority_update` accessor is modelled from the spec
(`Option::take` on `last_priority_update`; h3/stream.rs is not among the
sources). -/
def take_last_priority_update (st : ConnState) (peid : Nat) :
    ConnState × Except Error (List Nat) :=
  match smLookup st.streams peid with
  | some s =>
    let st' := { st with
      streams := smInsert st.streams peid { s with lastPriorityUpdate := none } }
    match s.lastPriorityUpdate with
    | some v => (st', .ok v)
    | none => (st', .error .Done)
  | none => (st, .error .Done)

/-- The emission half of `Connection::send_goaway` from mod.rs, reached
after validation: with no local control stream the call is a silent no-op;
otherwise the GOAWAY frame (type varint, length varint, id varint — the
`frame.rs` encoder is modelled from the spec's frame layout, section 4.1)
is written atomically against the control stream's capacity and
`local_goaway_id` is recorded. -/
def send_goaway_emit (st : ConnState) (tp : Transport) (id : Nat) :
    ConnState × Transport × Except Error Unit :=
  match st.controlStreamId with
  | some csid =>
    let wire_len := varint_len GOAWAY_FRAME_TYPE_ID +
      varint_len (varint_len id) + varint_len id
    match tp.capacity csid with
    | .error e => (st, tp, .error (errorFromTransport e))
    | .ok stream_cap =>
      if stream_cap < wire_len then (st, tp, .error .StreamBlocked)
      else
        match tp.stream_send csid wire_len false with
        | (tp1, .error e) => (st, tp1, .error (errorFromTransport e))
        | (tp1, .ok _) => ({ st with localGoawayId := some id }, tp1, .ok ())
  | none => (st, tp, .ok ())

/-- `Connection::send_goaway` from mod.rs: a client always sends id 0; a
server id must be a request-stream id (`% 4 == 0`); the id must not exceed
a previously sent local GOAWAY id; then emit. -/
def send_goaway (st : ConnState) (tp : Transport) (id0 : Nat) :
    ConnState × Transport × Except Error Unit :=
  let id := if ¬st.isServer then 0 else id0
  if st.isServer ∧ id % 4 ≠ 0 then (st, tp, .error .IdError)
  else
    match st.localGoawayId with
    | some sent_id =>
      if id > sent_id then (st, tp, .error .IdError)
      else send_goaway_emit st tp id
    | none => send_goaway_emit st tp id

/-- A client connection state used by the concrete counterexamples and
witnesses: peer control stream 3, local control stream 2, fresh in every
other respect. -/
def exConnClient : ConnState :=
  { isServer := false, nextRequestStreamId := 0, streams := [],
    controlStreamId := some 2, peerControlStreamId := some 3,
    framesGreased := false, localGoawayId := none, peerGoawayId := none,
    maxPushId := 0 }

/-- A receive-side transport view used by the concrete counterexamples and
witnesses. -/
def exRecvTp : RecvTransport :=
  { maxStreamsBidi := 100, isCollected := fun _ => false }

/-- A transport oracle with greasing enabled, ample capacity, accepting
writes, and a negative `stream_writable` probe, used by the C2
counterexample. -/
def exTpGrease : Transport :=
  { grease := true, grease1 := 33, grease2 := 33,
    sendErr := fun _ => none, capacity := fun _ => .ok 100,
    writableRes := fun _ _ => .ok false,
    streamFinished := fun _ => false, sent := [] }

/-- A server connection state with peer control stream 3, used by concrete
witnesses. -/
def exConnServer : ConnState :=
  { isServer := true, nextRequestStreamId := 0, streams := [],
    controlStreamId := some 3, peerControlStreamId := some 2,
    framesGreased := false, localGoawayId := none, peerGoawayId := none,
    maxPushId := 0 }

/-- A server connection state owning one locally initialized request
stream 0, used by the C4 witness. -/
def exConnServerInit : ConnState :=
  { exConnServer with streams := [(0, ⟨true, false, none⟩)] }

/-- A transport oracle that refuses stream creation with `Done`, used by
the C3 witness. -/
def exTpDone : Transport :=
  { grease := false, grease1 := 33, grease2 := 33,
    sendErr := fun _ => some .done, capacity := fun _ => .ok 100,
    writableRes := fun _ _ => .ok true, streamFinished := fun _ => false,
    sent := [] }

/-- A transport oracle that accepts writes but answers `stream_writable`
negatively, with no greasing and a fixed capacity of 10 bytes, used by
concrete witnesses. -/
def exTpSmall : Transport :=
  { grease := false, grease1 := 33, grease2 := 33,
    sendErr := fun _ => none, capacity := fun _ => .ok 10,
    writableRes := fun _ _ => .ok false, streamFinished := fun _ => false,
    sent := [] }

/-- A client connection state that has already processed a peer GOAWAY,
used by the C6 witness. -/
def exConnClientGoaway : ConnState :=
  { exConnClient with peerGoawayId := some 0 }

/-- A client connection state with no local control stream, used by the C10
witness. -/
def exConnClientNoCtrl : ConnState :=
  { exConnClient with controlStreamId := none }

end H3

/-- C7: the mapping from internal error kinds to the wire error codes sent on
connection close is bit-exact: Done maps to 0x100, InternalError to 0x102,
StreamCreationError to 0x103, ClosedCriticalStream to 0x104, FrameUnexpected
to 0x105, FrameError to 0x106, ExcessiveLoad to 0x107, IdError to 0x108,
SettingsError to 0x109, MissingSettings to 0x10a, RequestRejected to 0x10b,
RequestCancelled to 0x10c, RequestIncomplete to 0x10d, MessageError to
0x10e, ConnectError to 0x10f, VersionFallback to 0x110, and a QPACK
decompression failure maps to 0x200. -/
theorem c7_to_wire_bit_exact :
    H3.Error.to_wire .Done = 0x100 ∧
    H3.Error.to_wire .InternalError = 0x102 ∧
    H3.Error.to_wire .StreamCreationError = 0x103 ∧
    H3.Error.to_wire .ClosedCriticalStream = 0x104 ∧
    H3.Error.to_wire .FrameUnexpected = 0x105 ∧
    H3.Error.to_wire .FrameError = 0x106 ∧
    H3.Error.to_wire .ExcessiveLoad = 0x107 ∧
    H3.Error.to_wire .IdError = 0x108 ∧
    H3.Error.to_wire .SettingsError = 0x109 ∧
    H3.Error.to_wire .MissingSettings = 0x10a ∧
    H3.Error.to_wire .RequestRejected = 0x10b ∧
    H3.Error.to_wire .RequestCancelled = 0x10c ∧
    H3.Error.to_wire .RequestIncomplete = 0x10d ∧
    H3.Error.to_wire .MessageError = 0x10e ∧
    H3.Error.to_wire .ConnectError = 0x10f ∧
    H3.Error.to_wire .VersionFallback = 0x110 ∧
    H3.Error.to_wire .QpackDecompressionFailed = 0x200 := by
  decide

/-- C9: for every possible random draw `n` (uniform below the bound the code
passes to `rand_u64_uniform`), the GREASE value `31 * n + 33` satisfies
`g % 0x1f = 0x21 % 0x1f` (that is `g % 31 = 2`) and `g < 2^62`. -/
theorem c9_grease_value_shape (n : Nat) (h : n < H3.grease_rand_bound) :
    H3.grease_value n % 31 = 2 ∧ H3.grease_value n < 2 ^ 62 := by
  unfold H3.grease_value
  unfold H3.grease_rand_bound at h
  constructor
  · omega
  · have : (2 : Nat) ^ 62 = 4611686018427387904 := by norm_num
    omega

/-- Witness for C9 at the concrete draw `n = 5`. -/
theorem c9_grease_value_shape_witness :
    H3.grease_value 5 % 31 = 2 ∧ H3.grease_value 5 < 2 ^ 62 :=
  c9_grease_value_shape 5 (by decide)

open H3 in
/-- C8 counterexample: the claim says an `i` parameter of non-boolean type
makes the parse fail with `Done`, but a dictionary whose `i` member is an
inner list (a non-boolean member, e.g. the field value `i=(1 2)`) parses
successfully to the default priority instead of failing. -/
theorem c8_counterexample :
    priority_try_from [("i", ListEntry.innerList)] = .ok (Priority.new 3 false) ∧
    (Except.ok (Priority.new 3 false) : Except Error Priority) ≠ .error .Done := by
  refine ⟨rfl, ?_⟩
  intro h
  exact Except.noConfusion h

open H3 in
/-- Helper: an out-of-range integer `u` member is clamped to 7 by the
urgency branch. -/
theorem urgency_from_clamp (d : Dict) (bi : BareItem) (v : Int)
    (hu : d.get "u" = some (.item bi)) (hv : bi.as_int = some v)
    (hrange : v < 0 ∨ 7 < v) : priority_urgency_from d = .ok 7 := by
  have hcond : ¬(PRIORITY_URGENCY_LOWER_BOUND ≤ v ∧ v ≤ PRIORITY_URGENCY_UPPER_BOUND) := by
    unfold PRIORITY_URGENCY_LOWER_BOUND PRIORITY_URGENCY_UPPER_BOUND
    omega
  simp [priority_urgency_from, hu, hv, hcond, PRIORITY_URGENCY_UPPER_BOUND]
  intro h1 h2
  unfold PRIORITY_URGENCY_LOWER_BOUND at h1
  omega

open H3 in
/-- Helper: an omitted `u` member yields the default urgency 3. -/
theorem urgency_from_default (d : Dict) (hu : d.get "u" = none) :
    priority_urgency_from d = .ok 3 := by
  simp [priority_urgency_from, hu, PRIORITY_URGENCY_DEFAULT]

open H3 in
/-- Helper: the only error the urgency branch can produce is `Done`. -/
theorem urgency_from_error_is_done (d : Dict) (e : Error)
    (h : priority_urgency_from d = .error e) : e = Error.Done := by
  unfold priority_urgency_from at h
  rcases hgu : d.get "u" with _ | le <;> rw [hgu] at h
  · simp at h
  rcases le with bi | _
  · rcases hint : bi.as_int with _ | v <;> simp only [hint] at h
    · injection h with h
      exact h.symm
    · split at h <;> exact absurd h (by simp)
  · injection h with h
    exact h.symm

open H3 in
/-- Helper: an `i` member that is a non-boolean Item makes the incremental
branch fail with `Done`. -/
theorem incremental_from_nonbool (d : Dict) (bi : BareItem)
    (hi : d.get "i" = some (.item bi)) (hb : bi.as_bool = none) :
    priority_incremental_from d = .error .Done := by
  simp [priority_incremental_from, hi, hb]

open H3 in
/-- Helper: an omitted `i` member yields the default `false`. -/
theorem incremental_from_default (d : Dict) (hi : d.get "i" = none) :
    priority_incremental_from d = .ok false := by
  simp [priority_incremental_from, hi]

open H3 in
/-- Helper: an `i` member that is an inner list falls into the wildcard arm
and yields the default `false`. -/
theorem incremental_from_inner_list (d : Dict)
    (hi : d.get "i" = some .innerList) :
    priority_incremental_from d = .ok false := by
  simp [priority_incremental_from, hi]

open H3 in
/-- C8 amended: parsing a PRIORITY_UPDATE field value dictionary: an integer
`u` member outside the range 0 through 7 is clamped to 7; an omitted `u`
yields the default urgency 3; an `i` member that is an Item of non-boolean
type makes the parse fail with `Done`, while an `i` member that is an inner
list is treated like an omitted one; an omitted `i` yields
`incremental = false`; unknown dictionary members are ignored (the result
depends only on the `u` and `i` members). -/
theorem c8_amended_priority_parse :
    (∀ (d : Dict) (bi : BareItem) (v : Int), d.get "u" = some (.item bi) →
      bi.as_int = some v → (v < 0 ∨ 7 < v) →
      ∀ p, priority_try_from d = .ok p → p.urgency = 7) ∧
    (∀ d : Dict, d.get "u" = none →
      ∀ p, priority_try_from d = .ok p → p.urgency = 3) ∧
    (∀ (d : Dict) (bi : BareItem), d.get "i" = some (.item bi) →
      bi.as_bool = none → priority_try_from d = .error .Done) ∧
    (∀ d : Dict, d.get "i" = none →
      ∀ p, priority_try_from d = .ok p → p.incremental = false) ∧
    (∀ d : Dict, d.get "i" = some .innerList →
      ∀ p, priority_try_from d = .ok p → p.incremental = false) ∧
    (∀ d₁ d₂ : Dict, d₁.get "u" = d₂.get "u" → d₁.get "i" = d₂.get "i" →
      priority_try_from d₁ = priority_try_from d₂) := by
  refine ⟨?_, ?_, ?_, ?_, ?_, ?_⟩
  · intro d bi v hu hv hrange p hp
    have h7 := urgency_from_clamp d bi v hu hv hrange
    rcases hinc : priority_incremental_from d with e | b <;>
      simp [priority_try_from, h7, hinc] at hp
    rw [← hp]
    rfl
  · intro d hu p hp
    have h3 := urgency_from_default d hu
    rcases hinc : priority_incremental_from d with e | b <;>
      simp [priority_try_from, h3, hinc] at hp
    rw [← hp]
    rfl
  · intro d bi hi hb
    have hinc := incremental_from_nonbool d bi hi hb
    rcases hurg : priority_urgency_from d with e | u
    · have := urgency_from_error_is_done d e hurg
      simp [priority_try_from, hurg, this]
    · simp [priority_try_from, hurg, hinc]
  · intro d hi p hp
    have hinc := incremental_from_default d hi
    rcases hurg : priority_urgency_from d with e | u <;>
      simp [priority_try_from, hurg, hinc] at hp
    rw [← hp]
    rfl
  · intro d hi p hp
    have hinc := incremental_from_inner_list d hi
    rcases hurg : priority_urgency_from d with e | u <;>
      simp [priority_try_from, hurg, hinc] at hp
    rw [← hp]
    rfl
  · intro d₁ d₂ hu hi
    unfold priority_try_from priority_urgency_from priority_incremental_from
    rw [hu, hi]

open H3 in
/-- Witness for C8 at a concrete input: a dictionary whose `i` member is a
non-boolean Item fails with `Done`. -/
theorem c8_amended_priority_parse_witness :
    priority_try_from [("i", ListEntry.item BareItem.otherItem)] = .error .Done :=
  c8_amended_priority_parse.2.2.1 [("i", ListEntry.item BareItem.otherItem)]
    BareItem.otherItem rfl rfl

open H3 in
/-- Helper: looking up the freshly inserted key finds the new entry. -/
theorem smLookup_smInsert_self (m : StreamMap) (k : Nat) (v : StreamSt) :
    smLookup (smInsert m k v) k = some v := by
  simp [smLookup, smInsert]

open H3 in
/-- Helper: lookup after erasure of the same key is `none`. -/
theorem smLookup_smErase_self (m : StreamMap) (k : Nat) :
    smLookup (smErase m k) k = none := by
  induction m with
  | nil => rfl
  | cons a t ih =>
    by_cases hb : a.1 = k
    · simpa [smErase, hb] using ih
    · simpa [smErase, smLookup, hb] using ih

open H3 in
/-- Helper: erasing one key leaves lookups of other keys unchanged. -/
theorem smLookup_smErase_ne (m : StreamMap) (k k' : Nat) (h : k' ≠ k) :
    smLookup (smErase m k) k' = smLookup m k' := by
  induction m with
  | nil => rfl
  | cons a t ih =>
    by_cases hb : a.1 = k
    · have hne : ¬(k = k') := fun hh => h hh.symm
      simpa [smErase, smLookup, hb, hne] using ih
    · by_cases hk' : a.1 = k'
      · simp [smErase, smLookup, hb, hk', h]
      · simpa [smErase, smLookup, hb, hk'] using ih

open H3 in
/-- Helper: inserting one key leaves lookups of other keys unchanged. -/
theorem smLookup_smInsert_ne (m : StreamMap) (k k' : Nat) (v : StreamSt)
    (h : k' ≠ k) : smLookup (smInsert m k v) k' = smLookup m k' := by
  have hne : ¬(k = k') := fun hh => h hh.symm
  have head : smLookup (smInsert m k v) k' = smLookup (smErase m k) k' := by
    simp [smInsert, smLookup, hne]
  rw [head, smLookup_smErase_ne m k k' h]

open H3 in
/-- Helper: the per-stream byte count is additive over log concatenation. -/
theorem sentBytes_append (l1 l2 : List SendRec) (sid : Nat) :
    sentBytes (l1 ++ l2) sid = sentBytes l1 sid + sentBytes l2 sid := by
  simp [sentBytes, sentOn, List.filter_append]

open H3 in
/-- Helper: greasing only appends to the transport's write log; every
oracle response function is untouched. -/
theorem send_grease_frames_shape (st : ConnState) (tp : Transport)
    (sid : Nat) :
    ∃ pre, (send_grease_frames st tp sid).2.1 =
      { tp with sent := tp.sent ++ pre } := by
  simp only [send_grease_frames, Transport.stream_send]
  rcases hc : tp.capacity sid with e | cap
  · exact ⟨[], by simp⟩
  · by_cases hcap : cap < varint_len tp.grease1 + 1 + varint_len tp.grease2 + 1 + 18
    · refine ⟨[], ?_⟩
      simp [hcap]
    · rcases hs : tp.sendErr sid with _ | e
      · refine ⟨[⟨sid, varint_len tp.grease1, false⟩, ⟨sid, 1, false⟩,
          ⟨sid, varint_len tp.grease2, false⟩, ⟨sid, 1, false⟩,
          ⟨sid, 18, false⟩], ?_⟩
        simp [hcap, hs]
      · refine ⟨[], ?_⟩
        simp [hcap, hs]

open H3 in
/-- Helper: greasing never changes `next_request_stream_id`. -/
theorem send_grease_frames_next (st : ConnState) (tp : Transport)
    (sid : Nat) :
    (send_grease_frames st tp sid).1.nextRequestStreamId =
      st.nextRequestStreamId := by
  simp only [send_grease_frames, Transport.stream_send]
  rcases hc : tp.capacity sid with e | cap
  · simp only []
    split <;> rfl
  · by_cases hcap : cap < varint_len tp.grease1 + 1 + varint_len tp.grease2 + 1 + 18
    · simp [hcap]
    · rcases hs : tp.sendErr sid with _ | e <;> simp [hcap, hs]

open H3 in
/-- Helper: a negative `stream_writable` probe makes the emission half fail
with `StreamBlocked`, leaving state and transport untouched. -/
theorem send_headers_emit_blocked (st : ConnState) (tp : Transport)
    (sid : Nat) (hb : List Nat) (fin : Bool)
    (h : tp.writableRes sid (varint_len HEADERS_FRAME_TYPE_ID +
      varint_len hb.length + hb.length) = .ok false) :
    send_headers_emit st tp sid hb fin = (st, tp, .error .StreamBlocked) := by
  simp [send_headers_emit, h]

open H3 in
/-- Helper: a successful emission means the `stream_writable` probe for the
frame header plus header block was positive, and exactly those two writes
were appended to the log. -/
theorem send_headers_emit_ok (st st' : ConnState) (tp tp' : Transport)
    (sid : Nat) (hb : List Nat) (fin : Bool)
    (h : send_headers_emit st tp sid hb fin = (st', tp', .ok ())) :
    tp.writableRes sid (varint_len HEADERS_FRAME_TYPE_ID +
      varint_len hb.length + hb.length) = .ok true ∧
    tp'.sent = tp.sent ++
      [⟨sid, varint_len HEADERS_FRAME_TYPE_ID + varint_len hb.length, false⟩,
       ⟨sid, hb.length, fin⟩] := by
  simp only [send_headers_emit, Transport.stream_send] at h
  rcases hw : tp.writableRes sid (varint_len HEADERS_FRAME_TYPE_ID +
      varint_len hb.length + hb.length) with e | b
  · rw [hw] at h
    simp at h
  · rw [hw] at h
    cases b
    · simp at h
    · rcases hs : tp.sendErr sid with _ | e
      · simp only [hs] at h
        simp only [Prod.mk.injEq] at h
        obtain ⟨h1, h2, -⟩ := h
        refine ⟨rfl, ?_⟩
        rw [← h2]
        simp
      · simp [hs] at h

open H3 in
/-- Helper: the emission half never changes `next_request_stream_id`. -/
theorem send_headers_emit_next (st : ConnState) (tp : Transport)
    (sid : Nat) (hb : List Nat) (fin : Bool) :
    (send_headers_emit st tp sid hb fin).1.nextRequestStreamId =
      st.nextRequestStreamId := by
  simp only [send_headers_emit, Transport.stream_send]
  rcases hw : tp.writableRes sid (varint_len HEADERS_FRAME_TYPE_ID +
      varint_len hb.length + hb.length) with e | b
  · simp only []
    split <;> rfl
  · cases b
    · simp
    · rcases hs : tp.sendErr sid with _ | e
      · simp only [hs]
        rcases hl : smLookup st.streams sid with _ | s <;> simp [hl] <;>
          split <;> rfl
      · simp [hs]

open H3 in
/-- Helper: every varint occupies at least one byte. -/
theorem varint_len_pos (v : Nat) : 0 < varint_len v := by
  unfold varint_len
  split_ifs <;> norm_num

open H3 in
/-- Helper: `send_headers` never changes `next_request_stream_id`. -/
theorem send_headers_next (st : ConnState) (tp : Transport) (sid : Nat)
    (hb : List Nat) (fin : Bool) :
    (send_headers st tp sid hb fin).1.nextRequestStreamId =
      st.nextRequestStreamId := by
  unfold send_headers
  by_cases hg : ¬st.framesGreased ∧ tp.grease
  · rw [if_pos hg]
    have hnx := send_grease_frames_next st tp sid
    rcases hgf : send_grease_frames st tp sid with ⟨st1, tp1, r⟩
    rw [hgf] at hnx
    cases r with
    | error e => simpa using hnx
    | ok u =>
      have := send_headers_emit_next { st1 with framesGreased := true } tp1
        sid hb fin
      simp only [this]
      simpa using hnx
  · rw [if_neg hg]
    exact send_headers_emit_next st tp sid hb fin

open H3 in
/-- Helper: a successful `send_headers` means the `stream_writable` probe
was positive and the log grew by (possibly GREASE writes and) the HEADERS
frame header and block writes. -/
theorem send_headers_ok_emits (st st' : ConnState) (tp tp' : Transport)
    (sid : Nat) (hb : List Nat) (fin : Bool)
    (h : send_headers st tp sid hb fin = (st', tp', .ok ())) :
    tp.writableRes sid (varint_len HEADERS_FRAME_TYPE_ID +
      varint_len hb.length + hb.length) = .ok true ∧
    ∃ pre, tp'.sent = tp.sent ++ pre ++
      [⟨sid, varint_len HEADERS_FRAME_TYPE_ID + varint_len hb.length, false⟩,
       ⟨sid, hb.length, fin⟩] := by
  unfold send_headers at h
  by_cases hg : ¬st.framesGreased ∧ tp.grease
  · rw [if_pos hg] at h
    obtain ⟨pre, hsh⟩ := send_grease_frames_shape st tp sid
    rcases hgf : send_grease_frames st tp sid with ⟨st1, tp1, r⟩
    rw [hgf] at h hsh
    simp only [] at hsh
    cases r with
    | error e => simp at h
    | ok u =>
      obtain ⟨hw, hsent⟩ := send_headers_emit_ok _ st' tp1 tp' sid hb fin h
      constructor
      · rw [hsh] at hw
        exact hw
      · refine ⟨pre, ?_⟩
        rw [hsent, hsh]
  · rw [if_neg hg] at h
    obtain ⟨hw, hsent⟩ := send_headers_emit_ok st st' tp tp' sid hb fin h
    refine ⟨hw, ⟨[], ?_⟩⟩
    rw [hsent]
    simp

open H3 in
/-- Helper: the byte count of the two HEADERS writes on their stream. -/
theorem sentBytes_two (sid a b : Nat) (f1 f2 : Bool) :
    sentBytes [⟨sid, a, f1⟩, ⟨sid, b, f2⟩] sid = a + b := by
  simp [sentBytes, sentOn]

open H3 in
/-- Helper: with greasing inactive, a negative probe blocks `send_headers`
without any state or transport change. -/
theorem send_headers_blocked_no_grease (st : ConnState) (tp : Transport)
    (sid : Nat) (hb : List Nat) (fin : Bool)
    (hga : st.framesGreased = true ∨ tp.grease = false)
    (hw : tp.writableRes sid (varint_len HEADERS_FRAME_TYPE_ID +
      varint_len hb.length + hb.length) = .ok false) :
    send_headers st tp sid hb fin = (st, tp, .error .StreamBlocked) := by
  have hcond : ¬(¬st.framesGreased ∧ tp.grease) := by
    rcases hga with h | h <;> simp [h]
  unfold send_headers
  rw [if_neg hcond]
  exact send_headers_emit_blocked st tp sid hb fin hw

open H3 in
/-- Helper: with greasing active and completed, a negative probe blocks
`send_headers` right after the GREASE writes. -/
theorem send_headers_blocked_after_grease (st st1 : ConnState)
    (tp tp1 : Transport) (sid : Nat) (hb : List Nat) (fin : Bool)
    (hfg : st.framesGreased = false) (hgr : tp.grease = true)
    (hgf : send_grease_frames st tp sid = (st1, tp1, .ok ()))
    (hw : tp.writableRes sid (varint_len HEADERS_FRAME_TYPE_ID +
      varint_len hb.length + hb.length) = .ok false) :
    send_headers st tp sid hb fin =
      ({ st1 with framesGreased := true }, tp1, .error .StreamBlocked) := by
  obtain ⟨pre, hsh⟩ := send_grease_frames_shape st tp sid
  rw [hgf] at hsh
  simp only [] at hsh
  have hw1 : tp1.writableRes sid (varint_len HEADERS_FRAME_TYPE_ID +
      varint_len hb.length + hb.length) = .ok false := by
    rw [hsh]
    exact hw
  unfold send_headers
  rw [if_pos (by simp [hfg, hgr]), hgf]
  exact send_headers_emit_blocked { st1 with framesGreased := true } tp1
    sid hb fin hw1

open H3 in
/-- C2 counterexample: with transport greasing enabled and the one-shot
grease flag unset, a `send_headers` call that fails the `stream_writable`
probe still returns `StreamBlocked` after complete GREASE frames have
already been written to the stream, so "no bytes have been emitted on that
stream by the call" does not hold. -/
theorem c2_counterexample :
    (send_headers exConnClient exTpGrease 0 [0, 0, 0] false).2.2 =
      .error .StreamBlocked ∧
    sentOn (send_headers exConnClient exTpGrease 0 [0, 0, 0] false).2.1.sent 0
      ≠ [] := by
  constructor
  · rfl
  · decide

open H3 in
/-- C2 amended: before any HEADERS-frame byte is emitted the engine queries
`stream_writable(stream, overhead + header_block_len)` with
`overhead = varint_len(HEADERS type) + varint_len(header block length)`;
a negative probe fails the call with `StreamBlocked` and, when transport
greasing is inactive, no bytes at all have been emitted on the stream by
the call; when greasing is active and ran, only the complete GREASE writes
precede the failed probe; a successful call implies the probe answered
positively and appended exactly the frame header write and the header
block write after any GREASE writes. -/
theorem c2_amended_headers_atomic :
    (∀ (st : ConnState) (tp : Transport) (sid : Nat) (hb : List Nat)
      (fin : Bool), (st.framesGreased = true ∨ tp.grease = false) →
      tp.writableRes sid (varint_len HEADERS_FRAME_TYPE_ID +
        varint_len hb.length + hb.length) = .ok false →
      send_headers st tp sid hb fin = (st, tp, .error .StreamBlocked)) ∧
    (∀ (st st1 : ConnState) (tp tp1 : Transport) (sid : Nat) (hb : List Nat)
      (fin : Bool), st.framesGreased = false → tp.grease = true →
      send_grease_frames st tp sid = (st1, tp1, .ok ()) →
      tp.writableRes sid (varint_len HEADERS_FRAME_TYPE_ID +
        varint_len hb.length + hb.length) = .ok false →
      send_headers st tp sid hb fin =
        ({ st1 with framesGreased := true }, tp1, .error .StreamBlocked)) ∧
    (∀ (st st' : ConnState) (tp tp' : Transport) (sid : Nat) (hb : List Nat)
      (fin : Bool), send_headers st tp sid hb fin = (st', tp', .ok ()) →
      tp.writableRes sid (varint_len HEADERS_FRAME_TYPE_ID +
        varint_len hb.length + hb.length) = .ok true ∧
      ∃ pre, tp'.sent = tp.sent ++ pre ++
        [⟨sid, varint_len HEADERS_FRAME_TYPE_ID + varint_len hb.length,
          false⟩, ⟨sid, hb.length, fin⟩]) := by
  refine ⟨?_, ?_, ?_⟩
  · intro st tp sid hb fin hga hw
    exact send_headers_blocked_no_grease st tp sid hb fin hga hw
  · intro st st1 tp tp1 sid hb fin hfg hgr hgf hw
    exact send_headers_blocked_after_grease st st1 tp tp1 sid hb fin hfg
      hgr hgf hw
  · intro st st' tp tp' sid hb fin h
    exact send_headers_ok_emits st st' tp tp' sid hb fin h

open H3 in
/-- Witness for C2 at a concrete input: with greasing inactive, a negative
probe yields `StreamBlocked` with state and transport untouched. -/
theorem c2_amended_headers_atomic_witness :
    send_headers exConnClient exTpSmall 0 [0] false =
      (exConnClient, exTpSmall, .error .StreamBlocked) :=
  c2_amended_headers_atomic.1 exConnClient exTpSmall 0 [0] false
    (Or.inr rfl) rfl

open H3 in
/-- C6: after a peer GOAWAY has been processed (`peer_goaway_id` is set),
`send_request` fails with `FrameUnexpected` leaving the connection state
(and with it the stream-id allocator) and the transport untouched. -/
theorem c6_send_request_after_goaway (st : ConnState) (tp : Transport)
    (hb : List Nat) (fin : Bool) (g : Nat)
    (h : st.peerGoawayId = some g) :
    send_request st tp hb fin = (st, tp, .error .FrameUnexpected) := by
  simp [send_request, h]

open H3 in
/-- Witness for C6 at a concrete input. -/
theorem c6_send_request_after_goaway_witness :
    send_request exConnClientGoaway exTpSmall [] false =
      (exConnClientGoaway, exTpSmall, .error .FrameUnexpected) :=
  c6_send_request_after_goaway exConnClientGoaway exTpSmall [] false 0 rfl

open H3 in
/-- C10: `send_goaway` with no local control stream and passing
role/monotonicity validation returns `Ok(())` silently: no frame is sent
and `local_goaway_id` stays unset. -/
theorem c10_send_goaway_no_control_stream (st : ConnState) (tp : Transport)
    (id0 : Nat) (hctrl : st.controlStreamId = none)
    (hrole : ¬(st.isServer ∧ (if ¬st.isServer then 0 else id0) % 4 ≠ 0))
    (hmono : ∀ sent_id, st.localGoawayId = some sent_id →
      (if ¬st.isServer then 0 else id0) ≤ sent_id) :
    send_goaway st tp id0 = (st, tp, .ok ()) := by
  unfold send_goaway
  rw [if_neg hrole]
  split
  · rename_i sent_id hlg
    have hle := hmono sent_id hlg
    rw [if_neg (by omega)]
    unfold send_goaway_emit
    rw [hctrl]
  · unfold send_goaway_emit
    rw [hctrl]

open H3 in
/-- Witness for C10 at a concrete input. -/
theorem c10_send_goaway_no_control_stream_witness :
    send_goaway exConnClientNoCtrl exTpSmall 4 =
      (exConnClientNoCtrl, exTpSmall, .ok ()) :=
  c10_send_goaway_no_control_stream exConnClientNoCtrl exTpSmall 4 rfl
    (by simp [exConnClientNoCtrl, exConnClient])
    (by intro s hs; simp [exConnClientNoCtrl, exConnClient] at hs)

open H3 in
/-- Helper: `send_headers`, given as an equation, preserves
`next_request_stream_id`. -/
theorem send_headers_next_of_eq {st st' : ConnState} {tp tp' : Transport}
    {sid : Nat} {hb : List Nat} {fin : Bool} {r : Except Error Unit}
    (h : send_headers st tp sid hb fin = (st', tp', r)) :
    st'.nextRequestStreamId = st.nextRequestStreamId := by
  have hnx := send_headers_next st tp sid hb fin
  rw [h] at hnx
  exact hnx

open H3 in
/-- C3: if the zero-length materialising write returns transport `Done`,
`send_request` fails with `StreamBlocked`, the reserved stream entry is
gone again, every other entry is untouched, `next_request_stream_id` is
unchanged and nothing was written; and in every execution
`next_request_stream_id` changes only by +4 and only on success, after the
stream's first bytes (the HEADERS frame header) were accepted by the
transport. -/
theorem c3_send_request_commit (st : ConnState) (tp : Transport)
    (hb : List Nat) (fin : Bool) :
    (st.peerGoawayId = none →
      tp.sendErr st.nextRequestStreamId = some .done →
      (send_request st tp hb fin).2.2 = .error .StreamBlocked ∧
      (send_request st tp hb fin).1.nextRequestStreamId =
        st.nextRequestStreamId ∧
      smLookup (send_request st tp hb fin).1.streams
        st.nextRequestStreamId = none ∧
      (∀ k, k ≠ st.nextRequestStreamId →
        smLookup (send_request st tp hb fin).1.streams k =
          smLookup st.streams k) ∧
      (send_request st tp hb fin).2.1.sent = tp.sent) ∧
    (∀ st' tp' r, send_request st tp hb fin = (st', tp', r) →
      st'.nextRequestStreamId ≠ st.nextRequestStreamId →
      st'.nextRequestStreamId = st.nextRequestStreamId + 4 ∧
      r = .ok st.nextRequestStreamId ∧
      sentBytes tp.sent st.nextRequestStreamId <
        sentBytes tp'.sent st.nextRequestStreamId) := by
  constructor
  · intro hng hdone
    have hsr : send_request st tp hb fin =
        ({ st with streams := smErase (smInsert st.streams
            st.nextRequestStreamId StreamSt.new) st.nextRequestStreamId },
          tp, .error .StreamBlocked) := by
      simp [send_request, hng, Transport.stream_send, hdone]
    rw [hsr]
    refine ⟨rfl, rfl, ?_, ?_, rfl⟩
    · exact smLookup_smErase_self _ _
    · intro k hk
      simp only []
      rw [smLookup_smErase_ne _ _ _ hk, smLookup_smInsert_ne _ _ _ _ hk]
  · intro st' tp' r h hneq
    unfold send_request at h
    by_cases hpg : st.peerGoawayId.isSome
    · rw [if_pos hpg] at h
      simp only [Prod.mk.injEq] at h
      exact absurd (by rw [← h.1]) hneq
    · rw [if_neg hpg] at h
      simp only [Transport.stream_send] at h
      rcases hse : tp.sendErr st.nextRequestStreamId with _ | e
      · rw [hse] at h
        simp only [] at h
        split at h
        · rename_i st2 tp2 e2 hsh
          simp only [Prod.mk.injEq] at h
          have hnx := send_headers_next_of_eq hsh
          exact absurd (by rw [← h.1, hnx]) hneq
        · rename_i st2 tp2 u hsh
          have hnx := send_headers_next_of_eq hsh
          obtain ⟨hw, pre, hsent⟩ := send_headers_ok_emits _ _ _ _ _ _ _ hsh
          split at h
          · rename_i hof
            simp only [Prod.mk.injEq] at h
            obtain ⟨h1, h2, h3⟩ := h
            refine ⟨?_, h3.symm, ?_⟩
            · rw [← h1]
              simp only []
              rw [hnx]
            · rw [← h2, hsent]
              simp only [List.append_assoc]
              rw [sentBytes_append, sentBytes_append, sentBytes_append,
                sentBytes_two]
              have hpos := varint_len_pos HEADERS_FRAME_TYPE_ID
              omega
          · rename_i hof
            simp only [Prod.mk.injEq] at h
            exact absurd (by rw [← h.1, hnx]) hneq
      · rw [hse] at h
        simp only [] at h
        split at h <;>
          · simp only [Prod.mk.injEq] at h
            exact absurd (by rw [← h.1]) hneq

open H3 in
/-- Witness for C3 at a concrete input: the transport refuses the
materialising write with `Done`. -/
theorem c3_send_request_commit_witness :
    (send_request exConnClient exTpDone [] false).2.2 =
      .error .StreamBlocked :=
  ((c3_send_request_commit exConnClient exTpDone [] false).1 rfl rfl).1

open H3 in
/-- C1 counterexample: a client processing GOAWAY with id 1 (not a multiple
of 4) on the peer control stream closes the transport with wire code 0x105
(the FrameUnexpected mapping), not IdError's 0x108 as the claim states,
while returning `IdError` to the application. -/
theorem c1_counterexample :
    ((process_frame exConnClient exRecvTp 3 (Frame.GoAway 1)).2.1.map
      (fun c => c.code)) = some 0x105 ∧
    (process_frame exConnClient exRecvTp 3 (Frame.GoAway 1)).2.2 =
      .error .IdError ∧
    (0x105 : Nat) ≠ 0x108 := by
  refine ⟨rfl, rfl, by decide⟩

open H3 in
/-- C1 amended: for a client, a GOAWAY received on the peer control stream
whose id is not a multiple of 4 closes the transport via
`close(app=true, code, reason)` with code equal to the wire mapping of
FrameUnexpected (0x105) — not IdError's 0x108 — before returning, and
returns the `IdError` error to the application. -/
theorem c1_amended_goaway_wrong_id (st : ConnState) (tpv : RecvTransport)
    (cs id : Nat) (hclient : st.isServer = false)
    (hcs : st.peerControlStreamId = some cs) (hid : id % 4 ≠ 0) :
    process_frame st tpv cs (Frame.GoAway id) =
      (st, some ⟨true, Error.to_wire .FrameUnexpected,
        "GOAWAY received with ID of non-request stream"⟩,
        .error .IdError) ∧
    Error.to_wire .FrameUnexpected = 0x105 := by
  constructor
  · simp only [process_frame]
    rw [hcs]
    rw [if_neg (by simp)]
    rw [if_pos ⟨by simp [hclient], hid⟩]
  · rfl

open H3 in
/-- Witness for C1 at a concrete input. -/
theorem c1_amended_goaway_wrong_id_witness :
    process_frame exConnClient exRecvTp 3 (Frame.GoAway 5) =
      (exConnClient, some ⟨true, Error.to_wire .FrameUnexpected,
        "GOAWAY received with ID of non-request stream"⟩,
        .error .IdError) ∧
    Error.to_wire .FrameUnexpected = 0x105 :=
  c1_amended_goaway_wrong_id exConnClient exRecvTp 3 5 rfl rfl (by decide)

open H3 in
/-- C5: a valid PRIORITY_UPDATE (request) frame fires the `(E,
PriorityUpdate)` event only when no untaken update is stored for E; a
further valid update overwrites the stored field value returning `Done`
without a second event; `take_last_priority_update` returns the most
recently stored value, clears it, and thereby re-arms the event, so the
next valid update fires again. -/
theorem c5_priority_update_rearm (st : ConnState) (tpv : RecvTransport)
    (cs peid : Nat) (pfv : List Nat)
    (hsrv : st.isServer = true)
    (hcs : st.peerControlStreamId = some cs)
    (hmod : peid % 4 = 0)
    (hlim : peid ≤ tpv.maxStreamsBidi * 4)
    (hcol : tpv.isCollected peid = false) :
    (smLookup st.streams peid = none →
      (process_frame st tpv cs (.PriorityUpdateRequest peid pfv)).2.2 =
        .ok (peid, .PriorityUpdate) ∧
      smLookup (process_frame st tpv cs
        (.PriorityUpdateRequest peid pfv)).1.streams peid =
        some ⟨false, false, some pfv⟩) ∧
    (∀ s, smLookup st.streams peid = some s → s.lastPriorityUpdate = none →
      (process_frame st tpv cs (.PriorityUpdateRequest peid pfv)).2.2 =
        .ok (peid, .PriorityUpdate) ∧
      smLookup (process_frame st tpv cs
        (.PriorityUpdateRequest peid pfv)).1.streams peid =
        some { s with lastPriorityUpdate := some pfv }) ∧
    (∀ s old, smLookup st.streams peid = some s →
      s.lastPriorityUpdate = some old →
      (process_frame st tpv cs (.PriorityUpdateRequest peid pfv)).2.2 =
        .error .Done ∧
      smLookup (process_frame st tpv cs
        (.PriorityUpdateRequest peid pfv)).1.streams peid =
        some { s with lastPriorityUpdate := some pfv }) ∧
    (∀ s v, smLookup st.streams peid = some s →
      s.lastPriorityUpdate = some v →
      (take_last_priority_update st peid).2 = .ok v ∧
      smLookup (take_last_priority_update st peid).1.streams peid =
        some { s with lastPriorityUpdate := none } ∧
      (process_frame (take_last_priority_update st peid).1 tpv cs
        (.PriorityUpdateRequest peid pfv)).2.2 =
        .ok (peid, .PriorityUpdate)) := by
  have hnotgt : ¬(peid > tpv.maxStreamsBidi * 4) := by omega
  refine ⟨?_, ?_, ?_, ?_⟩
  · intro hlk
    constructor
    · simp [process_frame, hsrv, hcs, hmod, hnotgt, hcol, hlk, StreamSt.new]
    · simp [process_frame, hsrv, hcs, hmod, hnotgt, hcol, hlk, StreamSt.new,
        smLookup_smInsert_self]
  · intro s hlk hnone
    constructor
    · simp [process_frame, hsrv, hcs, hmod, hnotgt, hcol, hlk, hnone]
    · simp [process_frame, hsrv, hcs, hmod, hnotgt, hcol, hlk, hnone,
        smLookup_smInsert_self]
  · intro s old hlk hsome
    constructor
    · simp [process_frame, hsrv, hcs, hmod, hnotgt, hcol, hlk, hsome]
    · simp [process_frame, hsrv, hcs, hmod, hnotgt, hcol, hlk, hsome,
        smLookup_smInsert_self]
  · intro s v hlk hsome
    have htake : take_last_priority_update st peid =
        ({ st with streams := (smInsert st.streams peid
          { s with lastPriorityUpdate := none }) }, .ok v) := by
      simp [take_last_priority_update, hlk, hsome]
    rw [htake]
    refine ⟨rfl, ?_, ?_⟩
    · exact smLookup_smInsert_self _ _ _
    · simp [process_frame, hsrv, hcs, hmod, hnotgt, hcol,
        smLookup_smInsert_self]

open H3 in
/-- C4: on an initialized request stream with transport capacity `cap`: if
`cap < overhead` (with `overhead = varint_len(DATA type) + varint_len len`)
the call returns `Done` without emitting anything; otherwise
`body_len = min len (cap - overhead)` bytes are framed with the fin flag
forced to `false` on truncation; when the (possibly forced) flag is false
and `body_len = 0` the call returns `Done` without emitting anything, so a
0-length DATA frame is emitted only when the stream is also being closed. -/
theorem c4_do_send_body_clamp (st : ConnState) (tp : Transport)
    (stream_id len : Nat) (fin : Bool) (s : StreamSt) (cap : Nat)
    (hsid : stream_id % 4 = 0)
    (hlk : smLookup st.streams stream_id = some s)
    (hinit : s.localInitialized = true)
    (htr : s.trailersSent = false)
    (hcap : tp.capacity stream_id = .ok cap)
    (hsend : tp.sendErr stream_id = none) :
    (cap < varint_len DATA_FRAME_TYPE_ID + varint_len len →
      (do_send_body st tp stream_id len fin).2.2 = .error .Done ∧
      (do_send_body st tp stream_id len fin).2.1.sent = tp.sent) ∧
    (∀ overhead body_len fin',
      overhead = varint_len DATA_FRAME_TYPE_ID + varint_len len →
      body_len = min len (cap - overhead) →
      fin' = (if body_len ≠ len then false else fin) →
      overhead ≤ cap →
      ((body_len = 0 ∧ fin' = false →
        (do_send_body st tp stream_id len fin).2.2 = .error .Done ∧
        (do_send_body st tp stream_id len fin).2.1.sent = tp.sent) ∧
      (¬(body_len = 0 ∧ fin' = false) →
        (do_send_body st tp stream_id len fin).2.2 = .ok body_len ∧
        (do_send_body st tp stream_id len fin).2.1.sent = tp.sent ++
          [⟨stream_id, varint_len DATA_FRAME_TYPE_ID + varint_len body_len,
            false⟩, ⟨stream_id, body_len, fin'⟩] ∧
        (body_len = 0 → fin' = true)))) := by
  constructor
  · intro hlt
    by_cases hz : len = 0 ∧ ¬fin
    · constructor <;>
        simp [do_send_body, hsid, hlk, hinit, htr, hz]
    · constructor <;>
        simp [do_send_body, hsid, hlk, hinit, htr, hz, hcap, hlt]
  · intro overhead body_len fin' hov hbl hfin hle
    subst hov hbl hfin
    have hnlt : ¬(cap < varint_len DATA_FRAME_TYPE_ID + varint_len len) := by
      omega
    constructor
    · intro ⟨h0, hf⟩
      by_cases hz : len = 0 ∧ ¬fin
      · constructor <;>
          simp [do_send_body, hsid, hlk, hinit, htr, hz]
      · have hlen : ¬(len = 0) := by
          intro hl
          apply hz
          refine ⟨hl, ?_⟩
          subst hl
          simpa using hf
        have hlen' : ¬((0 : Nat) = len) := fun hh => hlen hh.symm
        constructor <;>
          simp [do_send_body, hsid, hlk, hinit, htr, hz, hcap, hnlt, h0, hf,
            hlen, hlen']
    · intro hnz
      have hz : ¬(len = 0 ∧ ¬fin) := by
        intro ⟨hl, hf⟩
        apply hnz
        subst hl
        simp_all
      have hcond : ¬((len = 0 ∨ cap - (varint_len DATA_FRAME_TYPE_ID +
          varint_len len) = 0) ∧
          (len ≤ cap - (varint_len DATA_FRAME_TYPE_ID + varint_len len) →
            fin = false)) := by
        intro ⟨ha, hb⟩
        apply hnz
        constructor
        · omega
        · by_cases hml : len ≤ cap - (varint_len DATA_FRAME_TYPE_ID +
            varint_len len)
          · have hmin : min len (cap - (varint_len DATA_FRAME_TYPE_ID +
                varint_len len)) = len := by omega
            simp [hmin, hb hml]
          · have hmin : min len (cap - (varint_len DATA_FRAME_TYPE_ID +
                varint_len len)) ≠ len := by omega
            simp [hmin]
      have hz' : ¬(len = 0 ∧ fin = false) := by simpa using hz
      refine ⟨?_, ?_, ?_⟩
      · simp [do_send_body, hsid, hlk, hinit, htr, hz', hcap, hnlt,
          Transport.stream_send, hsend, hcond]
      · simp [do_send_body, hsid, hlk, hinit, htr, hz', hcap, hnlt,
          Transport.stream_send, hsend, hcond]
      · intro hbl0
        by_contra hft
        apply hnz
        exact ⟨hbl0, by simpa using hft⟩

open H3 in
/-- Witness for C4 at a concrete input: capacity 10, a 20-byte body is
clamped to 8 bytes with the fin flag forced off. -/
theorem c4_do_send_body_clamp_witness :
    (do_send_body exConnServerInit exTpSmall 0 20 true).2.2 = .ok 8 :=
  (((c4_do_send_body_clamp exConnServerInit exTpSmall 0 20 true
      ⟨true, false, none⟩ 10 rfl rfl rfl rfl rfl rfl).2
    (varint_len DATA_FRAME_TYPE_ID + varint_len 20)
    (min 20 (10 - (varint_len DATA_FRAME_TYPE_ID + varint_len 20)))
    (if min 20 (10 - (varint_len DATA_FRAME_TYPE_ID + varint_len 20)) ≠ 20
      then false else true)
    rfl rfl rfl (by decide)).2 (by decide)).1

open H3 in
/-- Witness for C5 at a concrete input: a first valid PRIORITY_UPDATE for
element 0 fires the event and stores the field value. -/
theorem c5_priority_update_rearm_witness :
    (process_frame exConnServer exRecvTp 2
      (.PriorityUpdateRequest 0 [117])).2.2 = .ok (0, .PriorityUpdate) ∧
    smLookup (process_frame exConnServer exRecvTp 2
      (.PriorityUpdateRequest 0 [117])).1.streams 0 =
      some ⟨false, false, some [117]⟩ :=
  (c5_priority_update_rearm exConnServer exRecvTp 2 0 [117] rfl rfl rfl
    (by decide) rfl).1 rfl
